import Mathlib

/-!
Shallow embedding of the `simnet` Go package (github.com/picatz/simnet).

The package interposes simulated network conditions (latency, jitter,
bandwidth, loss, duplication, reordering, partitions) between an application
and a real stream or datagram transport.  Pure logic is translated into Lean
functions; the shared `math/rand` generator is modelled as an abstract
deterministic stream of entropy values, each draw consuming one element;
goroutine-deferred actions (the reorder branches) are recorded in explicit
`pendingAsync` lists; the real underlying transport is modelled as explicit
state (`UnderConn`) or as a function argument (`listen`, `realDial`).
Durations are exact rationals in nanoseconds (the float-to-Duration
truncation of the Go code is abstracted away), byte payloads are `List Nat`,
addresses are `String`.
-/

/-- Bound of the raw generator output: 2 to the 63rd power, matching the range of
Go's Int63. -/
def m63 : Int := 9223372036854775808

/-- Abstract deterministic model of a `math/rand` generator: a stream of raw
entropy values together with the position of the next draw. -/
structure RandState where
  stream : Nat → Int
  idx : Nat

/-- One raw draw in the style of Go's Int63: the stream element reduced into
the half-open interval from 0 to `m63`, advancing the position. -/
def RandState.int63 (r : RandState) : Int × RandState :=
  (r.stream r.idx % m63, ⟨r.stream, r.idx + 1⟩)

/-- Model of `rand.Float64`: a rational in the unit interval, consuming one draw. -/
def RandState.float64 (r : RandState) : ℚ × RandState :=
  let p := r.int63
  ((p.1 : ℚ) / (m63 : ℚ), p.2)

/-- Model of `rand.Int63n bound`: a value in the half-open interval from 0 to
`bound` (for positive `bound`), consuming one draw. -/
def RandState.int63n (r : RandState) (bound : Int) : Int × RandState :=
  let p := r.int63
  (p.1 % bound, p.2)

/-- One step of the abstract generator used for seeding (a linear congruential
map standing in for Go's generator; the claims only rely on determinism in
the seed, not on the concrete values). -/
def lcgNext (s : Int) : Int := (6364136223846793005 * s + 1442695040888963407) % m63

/-- Deterministic entropy stream generated from a seed. -/
def lcgStream (seed : Int) : Nat → Int
  | 0 => lcgNext seed
  | n + 1 => lcgNext (lcgStream seed n)

/-- Model of `rand.New (rand.NewSource seed)`. -/
def mkRand (seed : Int) : RandState := ⟨lcgStream seed, 0⟩

/-- Model of `simnet.Config` (src/simnet.go).  `randS` is the lazily created
shared generator (the `rand` field); durations are int64 nanoseconds, rates
are rationals standing for the float64 fields. -/
structure Config where
  latency : Int
  jitter : Int
  bandwidth : Int
  lossRate : ℚ
  reorderRate : ℚ
  duplicateRate : ℚ
  partitionedAddrs : List String
  seed : Int
  randS : Option RandState

/-- Model of `simnet.NewConfig` with no options: every effect disabled. -/
def NewConfig : Config :=
  { latency := 0, jitter := 0, bandwidth := 0, lossRate := 0, reorderRate := 0,
    duplicateRate := 0, partitionedAddrs := [], seed := 0, randS := none }

/-- Model of `Config.isPartitioned`: presence of the address in the partition
set (the Go map is consulted for key presence only). -/
def Config.isPartitioned (cfg : Config) (address : String) : Bool :=
  cfg.partitionedAddrs.contains address

/-- Model of `Config.randSource`: return the existing generator, or create it
on first use, seeded from `seed` when non-zero and otherwise from the ambient
entropy (the `time.Now().UnixNano()` value, passed here as an argument). -/
def Config.randSource (cfg : Config) (entropy : Int) : RandState × Config :=
  match cfg.randS with
  | some r => (r, cfg)
  | none =>
      let r := if cfg.seed ≠ 0 then mkRand cfg.seed else mkRand entropy
      (r, { cfg with randS := some r })

/-- Nanoseconds per second (`time.Second`). -/
def nsPerSec : ℚ := 1000000000

/-- Model of `simulatedConn.simulateLoss` (stream shim): Go's short-circuiting
conjunction `LossRate > 0 && rand.Float64() < LossRate`. -/
def simulatedConn.simulateLoss (cfg : Config) (r : RandState) : Bool × RandState :=
  if cfg.lossRate > 0 then
    let p := r.float64
    (p.1 < cfg.lossRate, p.2)
  else (false, r)

/-- Model of `simulatedConn.simulateReordering` (stream shim). -/
def simulatedConn.simulateReordering (cfg : Config) (r : RandState) : Bool × RandState :=
  if cfg.reorderRate > 0 then
    let p := r.float64
    (p.1 < cfg.reorderRate, p.2)
  else (false, r)

/-- Model of `simulatedConn.simulateDuplication` (stream shim). -/
def simulatedConn.simulateDuplication (cfg : Config) (r : RandState) : Bool × RandState :=
  if cfg.duplicateRate > 0 then
    let p := r.float64
    (p.1 < cfg.duplicateRate, p.2)
  else (false, r)

/-- Model of `simulatedConn.calculateLatency`: base latency, plus an Int63n
draw when jitter is positive, plus the serialization term when the bandwidth
cap is positive and the payload non-empty.  The returned delay is an exact
rational number of nanoseconds. -/
def simulatedConn.calculateLatency (cfg : Config) (n : Nat) (r : RandState) : ℚ × RandState :=
  let s :=
    if 0 < cfg.jitter then
      let p := r.int63n cfg.jitter
      ((cfg.latency : ℚ) + (p.1 : ℚ), p.2)
    else ((cfg.latency : ℚ), r)
  if 0 < cfg.bandwidth ∧ 0 < n then
    (s.1 + (n : ℚ) / (cfg.bandwidth : ℚ) * nsPerSec, s.2)
  else s

/-- Model of `simulatedConn.simulateLatency`: computes the delay (the sleep
itself has no further observable effect in the model). -/
def simulatedConn.simulateLatency (cfg : Config) (n : Nat) (r : RandState) : ℚ × RandState :=
  simulatedConn.calculateLatency cfg n r

/-- Model of `simulatedPacketConn.simulateLoss` (datagram shim, textually the
same decision as the stream shim's). -/
def simulatedPacketConn.simulateLoss (cfg : Config) (r : RandState) : Bool × RandState :=
  if cfg.lossRate > 0 then
    let p := r.float64
    (p.1 < cfg.lossRate, p.2)
  else (false, r)

/-- Model of `simulatedPacketConn.simulateReordering` (datagram shim). -/
def simulatedPacketConn.simulateReordering (cfg : Config) (r : RandState) : Bool × RandState :=
  if cfg.reorderRate > 0 then
    let p := r.float64
    (p.1 < cfg.reorderRate, p.2)
  else (false, r)

/-- Model of `simulatedPacketConn.simulateDuplication` (datagram shim). -/
def simulatedPacketConn.simulateDuplication (cfg : Config) (r : RandState) : Bool × RandState :=
  if cfg.duplicateRate > 0 then
    let p := r.float64
    (p.1 < cfg.duplicateRate, p.2)
  else (false, r)

/-- Model of `simulatedPacketConn.simulateLatency` (datagram shim; same
formula as the stream shim's `calculateLatency`, written out from its own
source). -/
def simulatedPacketConn.simulateLatency (cfg : Config) (n : Nat) (r : RandState) : ℚ × RandState :=
  let s :=
    if 0 < cfg.jitter then
      let p := r.int63n cfg.jitter
      ((cfg.latency : ℚ) + (p.1 : ℚ), p.2)
    else ((cfg.latency : ℚ), r)
  if 0 < cfg.bandwidth ∧ 0 < n then
    (s.1 + (n : ℚ) / (cfg.bandwidth : ℚ) * nsPerSec, s.2)
  else s

/-- Model of Go's `copy dst src`: the first `min` bytes of `src` overwrite the
prefix of `dst`, whose remaining suffix is preserved. -/
def listCopy (dst src : List Nat) : List Nat :=
  src.take (min dst.length src.length) ++ dst.drop (min dst.length src.length)

/-- Error outcomes on the stream shim's read and write paths. -/
inductive RError
  | none
  | eof
  | other (msg : String)
  deriving DecidableEq

/-- State of the stream shim `simulatedConn`: the retained reorder buffer, the
bounded transmit queue, the reorder-deferred enqueues whose goroutines have
not run yet, the `closeOnce` flag and the closed signal. -/
structure WStream where
  readBuf : List Nat
  writeQueue : List (List Nat)
  pendingAsync : List (List Nat)
  onceDone : Bool
  closed : Bool
  deriving DecidableEq

/-- Fresh stream shim state as built by `wrapConn`. -/
def wst0 : WStream :=
  { readBuf := [], writeQueue := [], pendingAsync := [], onceDone := false, closed := false }

/-- Model of the real underlying stream connection: chunks a subsequent
`conn.Read` will deliver, and the data `conn.Write` has put on the wire. -/
structure UnderConn where
  toRead : List (List Nat)
  sent : List (List Nat)
  deriving DecidableEq

/-- Model of `conn.Read buffer` on the real connection: deliver up to `maxLen`
bytes of the next pending chunk, keeping any remainder; with nothing pending,
report end of stream. -/
def UnderConn.read (uc : UnderConn) (maxLen : Nat) : List Nat × RError × UnderConn :=
  match uc.toRead with
  | [] => ([], RError.eof, uc)
  | u :: rest =>
      if u.length ≤ maxLen then (u, RError.none, { uc with toRead := rest })
      else (u.take maxLen, RError.none, { uc with toRead := u.drop maxLen :: rest })

/-- Result of a stream shim read: the returned count, the final content of the
caller's buffer, and the returned error. -/
structure ReadResult where
  n : Nat
  buf : List Nat
  err : RError
  deriving DecidableEq

/-- Model of `simulatedConn.enqueueWrite`: append to the transmit queue unless
the closed signal is already selected. -/
def simulatedConn.enqueueWrite (st : WStream) (d : List Nat) : WStream :=
  if st.closed then st else { st with writeQueue := st.writeQueue ++ [d] }

/-- Model of `simulatedConn.Read`.  The caller's buffer `b` is passed with its
current content; the underlying connection state `uc` supplies what
`conn.Read` returns.  Follows the source: loss short-circuits with EOF before
the underlying read; otherwise, on a non-empty read, the duplication draw may
append the fresh bytes to `readBuf`, and the reordering draw (with a
non-empty `readBuf`) swaps the retained buffer into the caller's buffer,
returning the caller's full buffer length. -/
def simulatedConn.Read (cfg : Config) (b : List Nat) (st : WStream) (uc : UnderConn)
    (r : RandState) : ReadResult × WStream × UnderConn × RandState :=
  let pl := simulatedConn.simulateLoss cfg r
  if pl.1 then ({ n := 0, buf := b, err := RError.eof }, st, uc, pl.2)
  else
    let ur := uc.read b.length
    let u := ur.1
    let uerr := ur.2.1
    let uc := ur.2.2
    if 0 < u.length then
      let pd := simulatedConn.simulateDuplication cfg pl.2
      let st := if pd.1 then { st with readBuf := st.readBuf ++ u } else st
      let pr := simulatedConn.simulateReordering cfg pd.2
      if pr.1 ∧ st.readBuf ≠ [] then
        let pl2 := simulatedConn.simulateLatency cfg u.length pr.2
        ({ n := b.length, buf := listCopy b st.readBuf, err := RError.none },
         { st with readBuf := u }, uc, pl2.2)
      else
        let pl2 := simulatedConn.simulateLatency cfg u.length pr.2
        ({ n := u.length, buf := listCopy b u, err := uerr }, st, uc, pl2.2)
    else
      ({ n := 0, buf := b, err := uerr }, st, uc, pl.2)

/-- Model of `simulatedConn.Write`.  Loss reports success without enqueuing;
duplication enqueues one extra copy; reordering defers the main enqueue to a
goroutine (recorded in `pendingAsync`); otherwise latency is applied
synchronously and the payload enqueued once. -/
def simulatedConn.Write (cfg : Config) (b : List Nat) (st : WStream) (r : RandState) :
    (Nat × RError) × WStream × RandState :=
  let pl := simulatedConn.simulateLoss cfg r
  if pl.1 then ((b.length, RError.none), st, pl.2)
  else
    let pd := simulatedConn.simulateDuplication cfg pl.2
    let st := if pd.1 then simulatedConn.enqueueWrite st b else st
    let pr := simulatedConn.simulateReordering cfg pd.2
    if pr.1 then
      ((b.length, RError.none), { st with pendingAsync := st.pendingAsync ++ [b] }, pr.2)
    else
      let pl2 := simulatedConn.simulateLatency cfg b.length pr.2
      ((b.length, RError.none), simulatedConn.enqueueWrite st b, pl2.2)

/-- Model of `simulatedConn.Close`: the channel closes happen only once (via
`closeOnce`), but `sc.conn.Close()` is invoked on every call; the count of
underlying closes is threaded explicitly. -/
def simulatedConn.Close (st : WStream) (underCloseCount : Nat) : WStream × Nat :=
  let st := if st.onceDone then st else { st with onceDone := true, closed := true }
  (st, underCloseCount + 1)

/-- Model of the background drain task `simulatedConn.processWriteQueue`
having consumed the whole transmit queue: each queued payload is written to
the underlying connection in FIFO order. -/
def simulatedConn.processWriteQueue (st : WStream) (uc : UnderConn) : WStream × UnderConn :=
  ({ st with writeQueue := [] }, { uc with sent := uc.sent ++ st.writeQueue })

/-- A sequence of stream shim writes performed in order. -/
def simulatedConn.writeAll (cfg : Config) (bs : List (List Nat)) (st : WStream)
    (r : RandState) : WStream × RandState :=
  bs.foldl (fun acc b =>
    let out := simulatedConn.Write cfg b acc.1 acc.2
    (out.2.1, out.2.2)) (st, r)

/-- Errors surfaced by the dialer and the datagram shim. -/
inductive SimError
  | networkPartitioned (address : String)
  | dialFailed (cause : String)
  deriving DecidableEq

/-- Model of `wrapConn`: a fresh stream shim state sharing the profile's
lazily created generator. -/
def wrapConn (cfg : Config) (entropy : Int) : WStream × Config × RandState :=
  let p := cfg.randSource entropy
  (wst0, p.2, p.1)

/-- Model of `Dialer.DialContext`: partition check first (failing without
touching the real dial function), then the real dial, whose failure is
wrapped as a dial failure and whose success is wrapped by the stream shim. -/
def Dialer.DialContext (cfg : Config) (address : String)
    (realDial : String → Except String Unit) (entropy : Int) :
    Except SimError (WStream × Config × RandState) :=
  if cfg.isPartitioned address then Except.error (SimError.networkPartitioned address)
  else
    match realDial address with
    | Except.error e => Except.error (SimError.dialFailed e)
    | Except.ok _ => Except.ok (wrapConn cfg entropy)

/-- Model of the datagram `packet`: payload bytes and the peer address. -/
structure Packet where
  data : List Nat
  addr : String
  deriving DecidableEq

/-- State of the datagram shim `simulatedPacketConn`: delivery queue, send
queue, reorder-deferred deliveries, the closed signal, and the (never
assigned, never read) local and remote address fields. -/
structure SPacketConn where
  readQueue : List Packet
  writeQueue : List Packet
  pendingAsync : List Packet
  closed : Bool
  localAddr : Option String
  remoteAddr : Option String
  deriving DecidableEq

/-- Fresh datagram shim state as built by `newSimulatedPacketConn` (the
`localAddr` and `remoteAddr` fields are left at their zero value). -/
def newSimulatedPacketConnState : SPacketConn :=
  { readQueue := [], writeQueue := [], pendingAsync := [], closed := false,
    localAddr := none, remoteAddr := none }

/-- Model of `simulatedPacketConn.deliverPacket`: sleep the computed latency
(consuming the jitter draw when configured) and place the packet on the
delivery (read) queue unless the connection is closed. -/
def simulatedPacketConn.deliverPacket (cfg : Config) (st : SPacketConn) (pkt : Packet)
    (r : RandState) : SPacketConn × RandState :=
  let p := simulatedPacketConn.simulateLatency cfg pkt.data.length r
  if st.closed then (st, p.2)
  else ({ st with readQueue := st.readQueue ++ [pkt] }, p.2)

/-- Model of `simulatedPacketConn.enqueuePacket`: under the profile lock, draw
loss (dropping the packet), duplication (one extra immediate delivery), and
reordering (deferring the delivery to a goroutine, recorded in
`pendingAsync`); otherwise deliver now. -/
def simulatedPacketConn.enqueuePacket (cfg : Config) (st : SPacketConn) (pkt : Packet)
    (r : RandState) : SPacketConn × RandState :=
  let pl := simulatedPacketConn.simulateLoss cfg r
  if pl.1 then (st, pl.2)
  else
    let pd := simulatedPacketConn.simulateDuplication cfg pl.2
    let sr := if pd.1 then simulatedPacketConn.deliverPacket cfg st pkt pd.2 else (st, pd.2)
    let pr := simulatedPacketConn.simulateReordering cfg sr.2
    if pr.1 then ({ sr.1 with pendingAsync := sr.1.pendingAsync ++ [pkt] }, pr.2)
    else simulatedPacketConn.deliverPacket cfg sr.1 pkt pr.2

/-- Model of `simulatedPacketConn.WriteTo`: partition check first (failing
without a loss draw), then the loss/duplicate/reorder pipeline on a defensive
copy of the payload, reporting the payload length on success. -/
def simulatedPacketConn.WriteTo (cfg : Config) (p : List Nat) (addr : String)
    (st : SPacketConn) (r : RandState) : Except SimError Nat × SPacketConn × RandState :=
  if cfg.isPartitioned addr then (Except.error (SimError.networkPartitioned addr), st, r)
  else
    let sr := simulatedPacketConn.enqueuePacket cfg st { data := p, addr := addr } r
    (Except.ok p.length, sr.1, sr.2)

/-- Result of a datagram shim receive. -/
inductive ReadFromResult
  | packet (n : Nat) (buf : List Nat) (addr : String)
  | errClosed
  | wouldBlock
  deriving DecidableEq

/-- Model of `simulatedPacketConn.ReadFrom` with caller buffer `p`: take the
next packet from the delivery queue, copying its data into the buffer and
returning the copied count and the packet's address; with an empty queue,
report the closed error if closed, else block. -/
def simulatedPacketConn.ReadFrom (st : SPacketConn) (p : List Nat) :
    ReadFromResult × SPacketConn :=
  match st.readQueue with
  | pkt :: rest =>
      (ReadFromResult.packet (min p.length pkt.data.length) (listCopy p pkt.data) pkt.addr,
       { st with readQueue := rest })
  | [] => if st.closed then (ReadFromResult.errClosed, st) else (ReadFromResult.wouldBlock, st)

/-- Outcome of an operation that can panic (closing a closed Go channel). -/
inductive CloseOutcome (α : Type)
  | panicked
  | ok (a : α)
  deriving DecidableEq

/-- Model of closing a Go channel: panics when the channel is already closed. -/
def closeChan (alreadyClosed : Bool) : CloseOutcome Unit :=
  if alreadyClosed then CloseOutcome.panicked else CloseOutcome.ok ()

/-- Model of `simulatedPacketConn.Close`: `close(spc.closed)` is called
unconditionally (no once guard), then the underlying connection is closed;
the count of underlying closes is threaded explicitly. -/
def simulatedPacketConn.Close (st : SPacketConn) (underCloseCount : Nat) :
    CloseOutcome (SPacketConn × Nat) :=
  match closeChan st.closed with
  | CloseOutcome.panicked => CloseOutcome.panicked
  | CloseOutcome.ok _ => CloseOutcome.ok ({ st with closed := true }, underCloseCount + 1)

/-- Model of `simnet.UDPConn`: default the configuration when absent, bind the
local address on the real socket (`listen`), fetch the profile's shared
generator, and build a fresh shim state.  The `raddr` parameter is accepted
as in the source and, as in the source, never used. -/
def UDPConn (cfg : Option Config) (listen : String → Except String Unit)
    (laddr raddr : String) (entropy : Int) :
    Except String (SPacketConn × Config × RandState) :=
  let cfg := cfg.getD NewConfig
  match listen laddr with
  | Except.error e => Except.error e
  | Except.ok _ =>
      let p := cfg.randSource entropy
      Except.ok (newSimulatedPacketConnState, p.2, p.1)

/-- One kind of effect decision. -/
inductive EffectOp
  | loss
  | dup
  | reorder

/-- The sequence of loss/duplicate/reorder decisions produced by a sequence of
decision evaluations against a profile, threading the shared generator. -/
def runDecisions (cfg : Config) : List EffectOp → RandState → List Bool
  | [], _ => []
  | op :: rest, r =>
      let p :=
        match op with
        | EffectOp.loss => simulatedConn.simulateLoss cfg r
        | EffectOp.dup => simulatedConn.simulateDuplication cfg r
        | EffectOp.reorder => simulatedConn.simulateReordering cfg r
      p.1 :: runDecisions cfg rest p.2

/-- Modelled from the spec: the shared latency formula, delay = base latency,
plus a uniform draw below the jitter bound when that bound is positive, plus
payload size divided by the bandwidth cap, in seconds, when the cap is
positive; the bandwidth term is omitted when the cap is 0. -/
def specDelay (cfg : Config) (jitterDraw : Int) (n : Nat) : ℚ :=
  (cfg.latency : ℚ) + (if 0 < cfg.jitter then (jitterDraw : ℚ) else 0) +
    (if 0 < cfg.bandwidth then (n : ℚ) / (cfg.bandwidth : ℚ) * nsPerSec else 0)

lemma m63_pos : (0 : Int) < m63 := by decide

lemma int63_nonneg (r : RandState) : 0 ≤ (r.int63).1 :=
  Int.emod_nonneg _ (by decide)

lemma int63_lt (r : RandState) : (r.int63).1 < m63 :=
  Int.emod_lt_of_pos _ m63_pos

lemma float64_nonneg (r : RandState) : 0 ≤ (r.float64).1 := by
  have h1 : (0 : ℚ) ≤ ((r.int63).1 : ℚ) := by exact_mod_cast int63_nonneg r
  have h2 : (0 : ℚ) ≤ ((m63 : Int) : ℚ) := by exact_mod_cast le_of_lt m63_pos
  exact div_nonneg h1 h2

lemma float64_lt_one (r : RandState) : (r.float64).1 < 1 := by
  have hm : (0 : ℚ) < ((m63 : Int) : ℚ) := by exact_mod_cast m63_pos
  have h : ((r.int63).1 : ℚ) < ((m63 : Int) : ℚ) := by exact_mod_cast int63_lt r
  exact (div_lt_one hm).mpr h

lemma int63n_fst (r : RandState) (bound : Int) :
    (r.int63n bound).1 = (r.int63).1 % bound := rfl

lemma int63n_nonneg (r : RandState) (bound : Int) (h : 0 < bound) :
    0 ≤ (r.int63n bound).1 := by
  rw [int63n_fst]
  exact Int.emod_nonneg _ (ne_of_gt h)

lemma int63n_lt (r : RandState) (bound : Int) (h : 0 < bound) :
    (r.int63n bound).1 < bound := by
  rw [int63n_fst]
  exact Int.emod_lt_of_pos _ h

/-- C5: for a profile in which a given effect's rate is 0, the corresponding
decision function (in either shim) returns false and leaves the shared random
source exactly as it was, so the draws seen by the other effects are
unperturbed. -/
theorem c5_zero_rate_consumes_no_randomness (cfg : Config) (r : RandState) :
    (cfg.lossRate = 0 →
        simulatedConn.simulateLoss cfg r = (false, r) ∧
        simulatedPacketConn.simulateLoss cfg r = (false, r)) ∧
    (cfg.duplicateRate = 0 →
        simulatedConn.simulateDuplication cfg r = (false, r) ∧
        simulatedPacketConn.simulateDuplication cfg r = (false, r)) ∧
    (cfg.reorderRate = 0 →
        simulatedConn.simulateReordering cfg r = (false, r) ∧
        simulatedPacketConn.simulateReordering cfg r = (false, r)) := by
  refine ⟨fun h => ?_, fun h => ?_, fun h => ?_⟩ <;>
    constructor <;>
      simp [simulatedConn.simulateLoss, simulatedPacketConn.simulateLoss,
        simulatedConn.simulateDuplication, simulatedPacketConn.simulateDuplication,
        simulatedConn.simulateReordering, simulatedPacketConn.simulateReordering, h]

/-- Witness for C5 at the default profile and a concrete generator. -/
theorem c5_witness :
    simulatedConn.simulateLoss NewConfig (mkRand 5) = (false, mkRand 5) ∧
    simulatedPacketConn.simulateLoss NewConfig (mkRand 5) = (false, mkRand 5) ∧
    simulatedConn.simulateDuplication NewConfig (mkRand 5) = (false, mkRand 5) ∧
    simulatedPacketConn.simulateDuplication NewConfig (mkRand 5) = (false, mkRand 5) ∧
    simulatedConn.simulateReordering NewConfig (mkRand 5) = (false, mkRand 5) ∧
    simulatedPacketConn.simulateReordering NewConfig (mkRand 5) = (false, mkRand 5) := by
  obtain ⟨h1, h2, h3⟩ := c5_zero_rate_consumes_no_randomness NewConfig (mkRand 5)
  exact ⟨(h1 rfl).1, (h1 rfl).2, (h2 rfl).1, (h2 rfl).2, (h3 rfl).1, (h3 rfl).2⟩

/-- C8: the computed delay equals base latency, plus the jitter draw when the
jitter bound is positive, plus payload size over bandwidth seconds when the
cap is positive (omitted at cap 0); the jitter draw lies in the half-open
interval from 0 to the bound, and both shims compute the same function. -/
theorem c8_latency_formula (cfg : Config) (n : Nat) (r : RandState) :
    (simulatedConn.calculateLatency cfg n r).1 = specDelay cfg ((r.int63n cfg.jitter).1) n ∧
    simulatedPacketConn.simulateLatency cfg n r = simulatedConn.calculateLatency cfg n r ∧
    (0 < cfg.jitter →
        0 ≤ (r.int63n cfg.jitter).1 ∧ (r.int63n cfg.jitter).1 < cfg.jitter) := by
  refine ⟨?_, rfl, fun hj => ⟨int63n_nonneg r _ hj, int63n_lt r _ hj⟩⟩
  unfold simulatedConn.calculateLatency specDelay
  by_cases hj : 0 < cfg.jitter <;> by_cases hb : 0 < cfg.bandwidth <;> by_cases hn : 0 < n <;>
    simp [hj, hb, hn]
  · have h0 : n = 0 := Nat.eq_zero_of_not_pos hn
    subst h0
    simp
  · have h0 : n = 0 := Nat.eq_zero_of_not_pos hn
    subst h0
    simp

/-- Witness for C8 at a concrete profile with positive jitter and bandwidth. -/
theorem c8_witness :
    (simulatedConn.calculateLatency
        { NewConfig with latency := 10, jitter := 5, bandwidth := 2 } 4
        (RandState.mk (fun _ => 3) 0)).1 =
      specDelay { NewConfig with latency := 10, jitter := 5, bandwidth := 2 }
        ((RandState.mk (fun _ => 3) 0).int63n 5).1 4 ∧
    0 ≤ ((RandState.mk (fun _ => 3) 0).int63n 5).1 ∧
    ((RandState.mk (fun _ => 3) 0).int63n 5).1 < 5 := by
  obtain ⟨h1, _, h3⟩ := c8_latency_formula
    { NewConfig with latency := 10, jitter := 5, bandwidth := 2 } 4 (RandState.mk (fun _ => 3) 0)
  exact ⟨h1, h3 (by decide)⟩

/-- C9: for a profile with a non-zero seed, the shared random source is
created exactly once, on first use, deterministically from the seed; later
calls return the stored generator unchanged, and two runs of the same
decision sequence from independently initialized sources (whatever the
ambient entropy) produce identical decisions. -/
theorem c9_seeded_reproducibility (cfg : Config) (e1 e2 : Int) (ops : List EffectOp) :
    (cfg.randS = none → cfg.seed ≠ 0 →
        cfg.randSource e1 = (mkRand cfg.seed, { cfg with randS := some (mkRand cfg.seed) })) ∧
    (∀ r0, cfg.randS = some r0 → cfg.randSource e1 = (r0, cfg)) ∧
    (cfg.randS = none → cfg.seed ≠ 0 →
        runDecisions cfg ops (cfg.randSource e1).1 =
          runDecisions cfg ops (cfg.randSource e2).1) := by
  refine ⟨fun hn hs => ?_, fun r0 h => ?_, fun hn hs => ?_⟩
  · simp [Config.randSource, hn, hs]
  · simp [Config.randSource, h]
  · simp [Config.randSource, hn, hs]

/-- Witness for C9 at seed 42 with two different ambient entropy values. -/
theorem c9_witness :
    Config.randSource { NewConfig with seed := 42 } 7 =
      (mkRand 42, { { NewConfig with seed := 42 } with randS := some (mkRand 42) }) ∧
    runDecisions { NewConfig with seed := 42 } [EffectOp.loss, EffectOp.dup]
        (Config.randSource { NewConfig with seed := 42 } 7).1 =
      runDecisions { NewConfig with seed := 42 } [EffectOp.loss, EffectOp.dup]
        (Config.randSource { NewConfig with seed := 42 } 99).1 := by
  obtain ⟨h1, _, h3⟩ := c9_seeded_reproducibility { NewConfig with seed := 42 } 7 99
    [EffectOp.loss, EffectOp.dup]
  exact ⟨h1 rfl (by decide), h3 rfl (by decide)⟩

/-- Functorial action on a close outcome. -/
def CloseOutcome.map {α β : Type} (f : α → β) : CloseOutcome α → CloseOutcome β
  | CloseOutcome.panicked => CloseOutcome.panicked
  | CloseOutcome.ok a => CloseOutcome.ok (f a)

lemma deliverPacket_remote (cfg : Config) (st : SPacketConn) (pkt : Packet) (r : RandState)
    (a : Option String) :
    simulatedPacketConn.deliverPacket cfg { st with remoteAddr := a } pkt r =
      ({ (simulatedPacketConn.deliverPacket cfg st pkt r).1 with remoteAddr := a },
       (simulatedPacketConn.deliverPacket cfg st pkt r).2) := by
  unfold simulatedPacketConn.deliverPacket
  by_cases h : st.closed <;> simp [h]

lemma enqueuePacket_remote (cfg : Config) (st : SPacketConn) (pkt : Packet) (r : RandState)
    (a : Option String) :
    simulatedPacketConn.enqueuePacket cfg { st with remoteAddr := a } pkt r =
      ({ (simulatedPacketConn.enqueuePacket cfg st pkt r).1 with remoteAddr := a },
       (simulatedPacketConn.enqueuePacket cfg st pkt r).2) := by
  unfold simulatedPacketConn.enqueuePacket
  by_cases hl : (simulatedPacketConn.simulateLoss cfg r).1
  · simp [hl]
  · by_cases hd : (simulatedPacketConn.simulateDuplication cfg
      (simulatedPacketConn.simulateLoss cfg r).2).1
    · simp only [hl, hd, if_true, if_false, if_neg, Bool.false_eq_true, not_false_iff,
        deliverPacket_remote]
      by_cases hr : (simulatedPacketConn.simulateReordering cfg
          (simulatedPacketConn.deliverPacket cfg st pkt
            (simulatedPacketConn.simulateDuplication cfg
              (simulatedPacketConn.simulateLoss cfg r).2).2).2).1 <;>
        simp [hr, deliverPacket_remote]
    · simp only [hl, hd, if_true, if_false, if_neg, Bool.false_eq_true, not_false_iff]
      by_cases hr : (simulatedPacketConn.simulateReordering cfg
          (simulatedPacketConn.simulateDuplication cfg
            (simulatedPacketConn.simulateLoss cfg r).2).2).1 <;>
        simp [hr, deliverPacket_remote]

lemma writeTo_remote (cfg : Config) (p : List Nat) (addr : String) (st : SPacketConn)
    (a : Option String) (r : RandState) :
    simulatedPacketConn.WriteTo cfg p addr { st with remoteAddr := a } r =
      ((simulatedPacketConn.WriteTo cfg p addr st r).1,
       { (simulatedPacketConn.WriteTo cfg p addr st r).2.1 with remoteAddr := a },
       (simulatedPacketConn.WriteTo cfg p addr st r).2.2) := by
  unfold simulatedPacketConn.WriteTo
  by_cases hp : cfg.isPartitioned addr <;> simp [hp, enqueuePacket_remote]

lemma readFrom_remote (st : SPacketConn) (a : Option String) (p : List Nat) :
    simulatedPacketConn.ReadFrom { st with remoteAddr := a } p =
      ((simulatedPacketConn.ReadFrom st p).1,
       { (simulatedPacketConn.ReadFrom st p).2 with remoteAddr := a }) := by
  obtain ⟨rq, wq, pa, cl, la, ra⟩ := st
  unfold simulatedPacketConn.ReadFrom
  cases rq <;> [skip; rfl]
  by_cases h : cl <;> simp [h]

lemma close_remote (st : SPacketConn) (a : Option String) (k : Nat) :
    simulatedPacketConn.Close { st with remoteAddr := a } k =
      (simulatedPacketConn.Close st k).map (fun q => ({ q.1 with remoteAddr := a }, q.2)) := by
  unfold simulatedPacketConn.Close closeChan
  by_cases h : st.closed <;> simp [h, CloseOutcome.map]

/-- C10: the connection built by `UDPConn` is independent of its `raddr`
argument, and the remote-address field is never consulted: the send, receive
and close operations of two states differing only in that field produce the
same results and states differing only in that field. -/
theorem c10_raddr_never_used :
    (∀ (cfg : Option Config) (listen : String → Except String Unit) (laddr r1 r2 : String)
        (e : Int), UDPConn cfg listen laddr r1 e = UDPConn cfg listen laddr r2 e) ∧
    (∀ (cfg : Config) (p : List Nat) (addr : String) (st : SPacketConn) (a : Option String)
        (r : RandState),
        simulatedPacketConn.WriteTo cfg p addr { st with remoteAddr := a } r =
          ((simulatedPacketConn.WriteTo cfg p addr st r).1,
           { (simulatedPacketConn.WriteTo cfg p addr st r).2.1 with remoteAddr := a },
           (simulatedPacketConn.WriteTo cfg p addr st r).2.2)) ∧
    (∀ (st : SPacketConn) (a : Option String) (p : List Nat),
        simulatedPacketConn.ReadFrom { st with remoteAddr := a } p =
          ((simulatedPacketConn.ReadFrom st p).1,
           { (simulatedPacketConn.ReadFrom st p).2 with remoteAddr := a })) ∧
    (∀ (st : SPacketConn) (a : Option String) (k : Nat),
        simulatedPacketConn.Close { st with remoteAddr := a } k =
          (simulatedPacketConn.Close st k).map (fun q => ({ q.1 with remoteAddr := a }, q.2))) :=
  ⟨fun _ _ _ _ _ _ => rfl, writeTo_remote, readFrom_remote, close_remote⟩

/-- The example payload "Hello, simnet!" as byte values. -/
def helloBytes : List Nat := [72, 101, 108, 108, 111, 44, 32, 115, 105, 109, 110, 101, 116, 33]

/-- C1 (divergence witness): with no effects configured, `WriteTo` reports
success but places the packet on the sender's own delivery (read) queue,
tagged with the destination address; the send queue stays empty, so the
outbound drain task never transmits anything, and the sender's own next
`ReadFrom` returns the payload with the destination address. -/
theorem c1_writeTo_delivers_to_own_read_queue :
    (simulatedPacketConn.WriteTo NewConfig helloBytes "127.0.0.1:8081"
        newSimulatedPacketConnState (mkRand 42)).1 = Except.ok 14 ∧
    (simulatedPacketConn.WriteTo NewConfig helloBytes "127.0.0.1:8081"
        newSimulatedPacketConnState (mkRand 42)).2.1.readQueue =
      [{ data := helloBytes, addr := "127.0.0.1:8081" }] ∧
    (simulatedPacketConn.WriteTo NewConfig helloBytes "127.0.0.1:8081"
        newSimulatedPacketConnState (mkRand 42)).2.1.writeQueue = [] ∧
    (simulatedPacketConn.ReadFrom
        (simulatedPacketConn.WriteTo NewConfig helloBytes "127.0.0.1:8081"
          newSimulatedPacketConnState (mkRand 42)).2.1
        (List.replicate 20 0)).1 =
      ReadFromResult.packet 14 (helloBytes ++ List.replicate 6 0) "127.0.0.1:8081" :=
  ⟨rfl, rfl, rfl, rfl⟩

/-- C4 (divergence witness): closing the datagram shim twice panics (the
closed channel is closed again, with no once guard), and the stream shim's
second close invokes the underlying connection's close a second time. -/
theorem c4_double_close_panics :
    simulatedPacketConn.Close newSimulatedPacketConnState 0 =
      CloseOutcome.ok ({ newSimulatedPacketConnState with closed := true }, 1) ∧
    simulatedPacketConn.Close { newSimulatedPacketConnState with closed := true } 1 =
      CloseOutcome.panicked ∧
    (simulatedConn.Close (simulatedConn.Close wst0 0).1 (simulatedConn.Close wst0 0).2).2 = 2 :=
  ⟨rfl, rfl, rfl⟩

/-- A profile used for partition tests: one partitioned address. -/
def cfgPart : Config := { NewConfig with partitionedAddrs := ["10.0.0.1:80"] }

/-- C6: dialing a partitioned address fails with the reachability error
without the real dial being consulted; a datagram send to a partitioned
address fails immediately, leaving the shim state and the random source
untouched (no loss draw); and a failing real dial to a reachable address is
surfaced wrapped as a dial failure. -/
theorem c6_partition_and_dial_errors (cfg : Config) (address : String) (p : List Nat)
    (st : SPacketConn) (r : RandState) :
    (cfg.isPartitioned address = true →
        ∀ (f g : String → Except String Unit) (e1 e2 : Int),
          Dialer.DialContext cfg address f e1 =
            Except.error (SimError.networkPartitioned address) ∧
          Dialer.DialContext cfg address f e1 = Dialer.DialContext cfg address g e2) ∧
    (cfg.isPartitioned address = true →
        simulatedPacketConn.WriteTo cfg p address st r =
          (Except.error (SimError.networkPartitioned address), st, r)) ∧
    (cfg.isPartitioned address = false →
        ∀ (msg : String) (e : Int),
          Dialer.DialContext cfg address (fun _ => Except.error msg) e =
            Except.error (SimError.dialFailed msg)) := by
  refine ⟨fun h f g e1 e2 => ?_, fun h => ?_, fun h msg e => ?_⟩
  · constructor <;> simp [Dialer.DialContext, h]
  · simp [simulatedPacketConn.WriteTo, h]
  · simp [Dialer.DialContext, h]

/-- Witness for C6 at a concrete profile, partitioned and reachable targets. -/
theorem c6_witness :
    Dialer.DialContext cfgPart "10.0.0.1:80" (fun _ => Except.ok ()) 3 =
      Except.error (SimError.networkPartitioned "10.0.0.1:80") ∧
    simulatedPacketConn.WriteTo cfgPart [1] "10.0.0.1:80" newSimulatedPacketConnState
        (mkRand 2) =
      (Except.error (SimError.networkPartitioned "10.0.0.1:80"), newSimulatedPacketConnState,
       mkRand 2) ∧
    Dialer.DialContext cfgPart "8.8.8.8:53" (fun _ => Except.error "connection refused") 3 =
      Except.error (SimError.dialFailed "connection refused") := by
  obtain ⟨h1, h2, _⟩ := c6_partition_and_dial_errors cfgPart "10.0.0.1:80" [1]
    newSimulatedPacketConnState (mkRand 2)
  obtain ⟨_, _, h3⟩ := c6_partition_and_dial_errors cfgPart "8.8.8.8:53" [1]
    newSimulatedPacketConnState (mkRand 2)
  exact ⟨(h1 (by decide) (fun _ => Except.ok ()) (fun _ => Except.ok ()) 3 3).1,
    h2 (by decide), h3 (by decide) "connection refused" 3⟩

lemma lossRate_one_loss (cfg : Config) (hr : cfg.lossRate = 1) (r : RandState) :
    (simulatedConn.simulateLoss cfg r).1 = true := by
  simp [simulatedConn.simulateLoss, hr]
  exact float64_lt_one r

lemma write_loss (cfg : Config) (b : List Nat) (st : WStream) (r : RandState)
    (h : (simulatedConn.simulateLoss cfg r).1 = true) :
    simulatedConn.Write cfg b st r =
      ((b.length, RError.none), st, (simulatedConn.simulateLoss cfg r).2) := by
  unfold simulatedConn.Write
  simp [h]

lemma read_loss (cfg : Config) (b : List Nat) (st : WStream) (uc : UnderConn) (r : RandState)
    (h : (simulatedConn.simulateLoss cfg r).1 = true) :
    simulatedConn.Read cfg b st uc r =
      ({ n := 0, buf := b, err := RError.eof }, st, uc, (simulatedConn.simulateLoss cfg r).2) := by
  unfold simulatedConn.Read
  simp [h]

lemma writeAll_loss_one (cfg : Config) (hr : cfg.lossRate = 1) :
    ∀ (bs : List (List Nat)) (st : WStream) (r : RandState),
      (simulatedConn.writeAll cfg bs st r).1 = st := by
  intro bs
  induction bs with
  | nil => intro st r; rfl
  | cons b rest ih =>
      intro st r
      have hstep : simulatedConn.writeAll cfg (b :: rest) st r =
          simulatedConn.writeAll cfg rest (simulatedConn.Write cfg b st r).2.1
            (simulatedConn.Write cfg b st r).2.2 := rfl
      rw [hstep, write_loss cfg b st r (lossRate_one_loss cfg hr r)]
      exact ih st (simulatedConn.simulateLoss cfg r).2

/-- C7: a write on which the loss draw succeeds reports the full length with
no error while enqueuing nothing, and a read on which it succeeds reports end
of stream without consulting the underlying connection; with loss rate 1 the
draw always succeeds, so any sequence of writes leaves the state unchanged
and the drain task delivers nothing to the peer. -/
theorem c7_loss_reported_as_success_or_eof (cfg : Config) (b : List Nat) (st : WStream)
    (uc : UnderConn) (r : RandState) :
    ((simulatedConn.simulateLoss cfg r).1 = true →
        simulatedConn.Write cfg b st r =
          ((b.length, RError.none), st, (simulatedConn.simulateLoss cfg r).2) ∧
        simulatedConn.Read cfg b st uc r =
          ({ n := 0, buf := b, err := RError.eof }, st, uc,
           (simulatedConn.simulateLoss cfg r).2)) ∧
    (cfg.lossRate = 1 →
        (simulatedConn.simulateLoss cfg r).1 = true ∧
        (∀ (bs : List (List Nat)), (simulatedConn.writeAll cfg bs st r).1 = st) ∧
        (∀ (bs : List (List Nat)),
          (simulatedConn.processWriteQueue
            (simulatedConn.writeAll cfg bs wst0 r).1 uc).2.sent = uc.sent)) := by
  refine ⟨fun h => ⟨write_loss cfg b st r h, read_loss cfg b st uc r h⟩, fun hr => ?_⟩
  refine ⟨lossRate_one_loss cfg hr r, fun bs => writeAll_loss_one cfg hr bs st r, fun bs => ?_⟩
  rw [writeAll_loss_one cfg hr bs wst0 r]
  simp [simulatedConn.processWriteQueue, wst0]

/-- Witness for C7 at loss rate 1 with a concrete generator. -/
theorem c7_witness :
    simulatedConn.Write { NewConfig with lossRate := 1 } [1, 2] wst0
        (RandState.mk (fun _ => 0) 0) =
      ((2, RError.none), wst0,
       (simulatedConn.simulateLoss { NewConfig with lossRate := 1 }
         (RandState.mk (fun _ => 0) 0)).2) ∧
    (simulatedConn.writeAll { NewConfig with lossRate := 1 } [[1], [2, 3]] wst0
        (RandState.mk (fun _ => 0) 0)).1 = wst0 := by
  obtain ⟨h1, h2⟩ := c7_loss_reported_as_success_or_eof { NewConfig with lossRate := 1 }
    [1, 2] wst0 (UnderConn.mk [] []) (RandState.mk (fun _ => 0) 0)
  refine ⟨(h1 ?_).1, ((h2 rfl).2.1 [[1], [2, 3]])⟩
  exact ((h2 rfl).1)

/-- A profile in which every probability is 0 and no latency, jitter, or
bandwidth is configured. -/
def zeroCfg (cfg : Config) : Prop :=
  cfg.lossRate = 0 ∧ cfg.duplicateRate = 0 ∧ cfg.reorderRate = 0 ∧
    cfg.latency = 0 ∧ cfg.jitter = 0 ∧ cfg.bandwidth = 0

lemma write_zero (cfg : Config) (h : zeroCfg cfg) (b : List Nat) (st : WStream)
    (hcl : st.closed = false) (r : RandState) :
    simulatedConn.Write cfg b st r =
      ((b.length, RError.none), { st with writeQueue := st.writeQueue ++ [b] }, r) := by
  obtain ⟨h1, h2, h3, h4, h5, h6⟩ := h
  unfold simulatedConn.Write simulatedConn.enqueueWrite
  simp [simulatedConn.simulateLoss, simulatedConn.simulateDuplication,
    simulatedConn.simulateReordering, simulatedConn.simulateLatency,
    simulatedConn.calculateLatency, h1, h2, h3, h4, h5, h6, hcl]

lemma read_zero (cfg : Config) (h : zeroCfg cfg) (b : List Nat) (st : WStream)
    (uc : UnderConn) (r : RandState) :
    simulatedConn.Read cfg b st uc r =
      ({ n := (uc.read b.length).1.length, buf := listCopy b (uc.read b.length).1,
         err := (uc.read b.length).2.1 }, st, (uc.read b.length).2.2, r) := by
  obtain ⟨h1, h2, h3, h4, h5, h6⟩ := h
  unfold simulatedConn.Read
  simp only [simulatedConn.simulateLoss, simulatedConn.simulateDuplication,
    simulatedConn.simulateReordering, simulatedConn.simulateLatency,
    simulatedConn.calculateLatency, h1, h2, h3, h4, h5, h6, lt_self_iff_false,
    if_false, decide_False, Bool.false_eq_true]
  by_cases hu : 0 < (uc.read b.length).1.length
  · simp [hu]
  · have hnil : (uc.read b.length).1 = [] :=
      List.eq_nil_of_length_eq_zero (Nat.eq_zero_of_not_pos hu)
    simp [hu, hnil, listCopy]

lemma writeAll_zero (cfg : Config) (h : zeroCfg cfg) :
    ∀ (bs : List (List Nat)) (st : WStream), st.closed = false → ∀ (r : RandState),
      simulatedConn.writeAll cfg bs st r =
        ({ st with writeQueue := st.writeQueue ++ bs }, r) := by
  intro bs
  induction bs with
  | nil => intro st hcl r; simp [simulatedConn.writeAll]
  | cons b rest ih =>
      intro st hcl r
      have hstep : simulatedConn.writeAll cfg (b :: rest) st r =
          simulatedConn.writeAll cfg rest (simulatedConn.Write cfg b st r).2.1
            (simulatedConn.Write cfg b st r).2.2 := rfl
      rw [hstep, write_zero cfg h b st hcl r]
      rw [ih { st with writeQueue := st.writeQueue ++ [b] } hcl r]
      simp

/-- C2: with every probability 0 and no latency, jitter, or bandwidth, the
stream shim is transparent: a write enqueues exactly its bytes once in FIFO
order with no random draw, the drain task hands the queued payloads to the
underlying connection in order, and a read returns exactly the bytes the
underlying connection produced, with their count, leaving every other piece
of state unchanged. -/
theorem c2_transparent_when_no_effects (cfg : Config) (h : zeroCfg cfg) :
    (∀ (b : List Nat) (st : WStream), st.closed = false → ∀ (r : RandState),
        simulatedConn.Write cfg b st r =
          ((b.length, RError.none), { st with writeQueue := st.writeQueue ++ [b] }, r)) ∧
    (∀ (bs : List (List Nat)) (st : WStream), st.closed = false →
        ∀ (r : RandState) (uc : UnderConn),
        simulatedConn.processWriteQueue (simulatedConn.writeAll cfg bs st r).1 uc =
          ({ st with writeQueue := [] },
           { uc with sent := uc.sent ++ (st.writeQueue ++ bs) })) ∧
    (∀ (b : List Nat) (st : WStream) (uc : UnderConn) (r : RandState),
        simulatedConn.Read cfg b st uc r =
          ({ n := (uc.read b.length).1.length, buf := listCopy b (uc.read b.length).1,
             err := (uc.read b.length).2.1 }, st, (uc.read b.length).2.2, r)) ∧
    (∀ (u b : List Nat), u.length ≤ b.length → listCopy b u = u ++ b.drop u.length) ∧
    (∀ (n : Nat) (r : RandState), simulatedConn.calculateLatency cfg n r = (0, r)) := by
  obtain ⟨h1, h2, h3, h4, h5, h6⟩ := h
  refine ⟨write_zero cfg ⟨h1, h2, h3, h4, h5, h6⟩, fun bs st hcl r uc => ?_,
    read_zero cfg ⟨h1, h2, h3, h4, h5, h6⟩, fun u b hle => ?_, fun n r => ?_⟩
  · rw [writeAll_zero cfg ⟨h1, h2, h3, h4, h5, h6⟩ bs st hcl r]
    simp [simulatedConn.processWriteQueue]
  · simp [listCopy, min_eq_right hle]
  · simp [simulatedConn.calculateLatency, h4, h5, h6]

/-- Witness for C2 at the default profile with concrete payloads. -/
theorem c2_witness :
    simulatedConn.Write NewConfig [1, 2, 3] wst0 (mkRand 7) =
      ((3, RError.none), { wst0 with writeQueue := wst0.writeQueue ++ [[1, 2, 3]] },
       mkRand 7) ∧
    simulatedConn.Read NewConfig [9, 9] wst0 (UnderConn.mk [[5]] []) (mkRand 7) =
      ({ n := ((UnderConn.mk [[5]] []).read 2).1.length,
         buf := listCopy [9, 9] ((UnderConn.mk [[5]] []).read 2).1,
         err := ((UnderConn.mk [[5]] []).read 2).2.1 }, wst0,
       ((UnderConn.mk [[5]] []).read 2).2.2, mkRand 7) := by
  obtain ⟨hw, _, hr, _, _⟩ :=
    c2_transparent_when_no_effects NewConfig ⟨rfl, rfl, rfl, rfl, rfl, rfl⟩
  exact ⟨hw [1, 2, 3] wst0 rfl (mkRand 7), hr [9, 9] wst0 (UnderConn.mk [[5]] []) (mkRand 7)⟩

/-- Profile for the reorder-swap counterexample: duplication and reordering
each at one half, everything else off. -/
def cfg3 : Config :=
  { latency := 0, jitter := 0, bandwidth := 0, lossRate := 0, reorderRate := 1/2,
    duplicateRate := 1/2, partitionedAddrs := [], seed := 0, randS := none }

/-- Entropy stream for the counterexample: the duplication draw of the first
read and the reordering draw of the second read succeed, the others fail. -/
def stream3 : Nat → Int := fun k => if k = 0 ∨ k = 3 then 0 else 4611686018427387904

/-- Underlying connection for the counterexample: a 2-byte chunk, then a
3-byte chunk. -/
def uc3 : UnderConn := { toRead := [[1, 2], [3, 4, 5]], sent := [] }

lemma loss3 (r : RandState) : simulatedConn.simulateLoss cfg3 r = (false, r) := by
  simp [simulatedConn.simulateLoss, show cfg3.lossRate = 0 from rfl]

lemma lat3 (n : Nat) (r : RandState) :
    simulatedConn.simulateLatency cfg3 n r = ((0 : ℚ), r) := by
  simp [simulatedConn.simulateLatency, simulatedConn.calculateLatency,
    show cfg3.jitter = 0 from rfl, show cfg3.bandwidth = 0 from rfl,
    show cfg3.latency = 0 from rfl]

lemma float64_s3_0 : (RandState.mk stream3 0).float64 = (0, RandState.mk stream3 1) := by
  unfold RandState.float64 RandState.int63
  simp [stream3]

lemma float64_s3_1 : (RandState.mk stream3 1).float64 = (1 / 2, RandState.mk stream3 2) := by
  unfold RandState.float64 RandState.int63
  dsimp only
  have h1 : stream3 1 = 4611686018427387904 := rfl
  have h2 : (4611686018427387904 : Int) % m63 = 4611686018427387904 := by decide
  rw [h1, h2]
  simp only [Prod.mk.injEq, and_true]
  norm_num [m63]

lemma float64_s3_2 : (RandState.mk stream3 2).float64 = (1 / 2, RandState.mk stream3 3) := by
  unfold RandState.float64 RandState.int63
  dsimp only
  have h1 : stream3 2 = 4611686018427387904 := rfl
  have h2 : (4611686018427387904 : Int) % m63 = 4611686018427387904 := by decide
  rw [h1, h2]
  simp only [Prod.mk.injEq, and_true]
  norm_num [m63]

lemma float64_s3_3 : (RandState.mk stream3 3).float64 = (0, RandState.mk stream3 4) := by
  unfold RandState.float64 RandState.int63
  simp [stream3]

lemma dup3_at0 :
    simulatedConn.simulateDuplication cfg3 (RandState.mk stream3 0) =
      (true, RandState.mk stream3 1) := by
  unfold simulatedConn.simulateDuplication
  rw [if_pos (show cfg3.duplicateRate > 0 by norm_num [cfg3])]
  simp only [float64_s3_0, Prod.mk.injEq, and_true]
  simp only [decide_eq_true_eq]
  norm_num [cfg3]

lemma reorder3_at1 :
    simulatedConn.simulateReordering cfg3 (RandState.mk stream3 1) =
      (false, RandState.mk stream3 2) := by
  unfold simulatedConn.simulateReordering
  rw [if_pos (show cfg3.reorderRate > 0 by norm_num [cfg3])]
  simp only [float64_s3_1, Prod.mk.injEq, and_true]
  simp only [decide_eq_false_iff_not]
  norm_num [cfg3]

lemma dup3_at2 :
    simulatedConn.simulateDuplication cfg3 (RandState.mk stream3 2) =
      (false, RandState.mk stream3 3) := by
  unfold simulatedConn.simulateDuplication
  rw [if_pos (show cfg3.duplicateRate > 0 by norm_num [cfg3])]
  simp only [float64_s3_2, Prod.mk.injEq, and_true]
  simp only [decide_eq_false_iff_not]
  norm_num [cfg3]

lemma reorder3_at3 :
    simulatedConn.simulateReordering cfg3 (RandState.mk stream3 3) =
      (true, RandState.mk stream3 4) := by
  unfold simulatedConn.simulateReordering
  rw [if_pos (show cfg3.reorderRate > 0 by norm_num [cfg3])]
  simp only [float64_s3_3, Prod.mk.injEq, and_true]
  simp only [decide_eq_true_eq]
  norm_num [cfg3]

lemma c3_read1 :
    simulatedConn.Read cfg3 [9, 9, 9, 9] wst0 uc3 (RandState.mk stream3 0) =
      ({ n := 2, buf := [1, 2, 9, 9], err := RError.none },
       { wst0 with readBuf := [1, 2] },
       UnderConn.mk [[3, 4, 5]] [], RandState.mk stream3 2) := by
  unfold simulatedConn.Read
  norm_num [loss3, dup3_at0, reorder3_at1, lat3, UnderConn.read, uc3, listCopy, wst0]

lemma c3_read2 :
    simulatedConn.Read cfg3 [9, 9, 9, 9] { wst0 with readBuf := [1, 2] }
        (UnderConn.mk [[3, 4, 5]] []) (RandState.mk stream3 2) =
      ({ n := 4, buf := [1, 2, 9, 9], err := RError.none },
       { wst0 with readBuf := [3, 4, 5] },
       UnderConn.mk [] [], RandState.mk stream3 4) := by
  unfold simulatedConn.Read
  norm_num [loss3, dup3_at2, reorder3_at3, lat3, UnderConn.read, listCopy, wst0]
  decide

/-- C3 (divergence witness): the first read (duplication draw succeeds)
returns its 2 genuine bytes and retains them; the second read (reordering
draw succeeds) delivers the 2-byte retained buffer into the 4-byte caller
buffer, yet returns count 4 — the caller's buffer capacity — counting two
stale bytes the underlying connection never produced as delivered. -/
theorem c3_swap_branch_returns_capacity :
    (simulatedConn.Read cfg3 [9, 9, 9, 9] wst0 uc3 (RandState.mk stream3 0)).1.n = 2 ∧
    (simulatedConn.Read cfg3 [9, 9, 9, 9] wst0 uc3 (RandState.mk stream3 0)).2.1.readBuf =
      [1, 2] ∧
    (simulatedConn.Read cfg3 [9, 9, 9, 9]
        (simulatedConn.Read cfg3 [9, 9, 9, 9] wst0 uc3 (RandState.mk stream3 0)).2.1
        (simulatedConn.Read cfg3 [9, 9, 9, 9] wst0 uc3 (RandState.mk stream3 0)).2.2.1
        (simulatedConn.Read cfg3 [9, 9, 9, 9] wst0 uc3 (RandState.mk stream3 0)).2.2.2).1.n =
      4 ∧
    (simulatedConn.Read cfg3 [9, 9, 9, 9]
        (simulatedConn.Read cfg3 [9, 9, 9, 9] wst0 uc3 (RandState.mk stream3 0)).2.1
        (simulatedConn.Read cfg3 [9, 9, 9, 9] wst0 uc3 (RandState.mk stream3 0)).2.2.1
        (simulatedConn.Read cfg3 [9, 9, 9, 9] wst0 uc3 (RandState.mk stream3 0)).2.2.2).1.buf =
      [1, 2, 9, 9] ∧
    (simulatedConn.Read cfg3 [9, 9, 9, 9]
        (simulatedConn.Read cfg3 [9, 9, 9, 9] wst0 uc3 (RandState.mk stream3 0)).2.1
        (simulatedConn.Read cfg3 [9, 9, 9, 9] wst0 uc3 (RandState.mk stream3 0)).2.2.1
        (simulatedConn.Read cfg3 [9, 9, 9, 9] wst0 uc3 (RandState.mk stream3 0)).2.2.2).2.1.readBuf =
      [3, 4, 5] := by
  refine ⟨?_, ?_, ?_, ?_, ?_⟩ <;> simp only [c3_read1, c3_read2]
